import Mathlib

/-!
Shallow embedding of the L-BERT forward computation from
`src/L-Bert/src/com/prj/bundle/modelling/modeling.py`.

Tensors are modeled as curried real-valued functions over `Fin`-indexed axes.
TensorFlow reshapes between `[B, S, H]` and `[B*S, H]` are value-preserving
bijections and are modeled by indexing with the product type `Fin B × Fin S`;
likewise the `[B*S, N*Hh]` axis is indexed by `Fin N × Fin Hh`.  Learnable
variables (dense kernels, biases, embedding tables, layer-norm scale/shift)
are explicit parameters.  The Bernoulli draws made by `tf.nn.dropout` are
explicit boolean `keep` inputs, so a forward pass is a pure function of its
inputs, parameters and random draws.
-/

namespace LBert

noncomputable section

/-- `tf.nn.softmax` on the last axis, one row at a time:
`softmaxRow v i = exp (v i) / Σ j, exp (v j)`. -/
def softmaxRow {n : ℕ} (v : Fin n → ℝ) : Fin n → ℝ :=
  fun i => Real.exp (v i) / ∑ j, Real.exp (v j)

/-- `dropout` (modeling.py lines 456-471).  The code returns the input
unchanged when `dropout_prob` is `None` or `== 0.0`; otherwise it runs
`tf.nn.dropout(input, 1 - p)`, which zeroes dropped entries and rescales the
kept ones by `1/(1-p)`.  `keep` is the Bernoulli draw made by
`tf.nn.dropout`. -/
def dropout {n : ℕ} (keep : Fin n → Bool) (dropout_prob : Option ℝ)
    (input_tensor : Fin n → ℝ) : Fin n → ℝ :=
  match dropout_prob with
  | none => input_tensor
  | some p =>
    if p = 0 then input_tensor
    else fun i => if keep i then input_tensor i / (1 - p) else 0

/-- `layer_norm` (lines 474-478): `tf.contrib.layers.layer_norm` over the
last axis, with learned scale `gamma` and shift `beta` and the library's
variance epsilon. -/
def layer_norm {H : ℕ} (gamma beta : Fin H → ℝ) (x : Fin H → ℝ) : Fin H → ℝ :=
  let mu := (∑ k, x k) / (H : ℝ)
  let sigma2 := (∑ k, (x k - mu) ^ 2) / (H : ℝ)
  fun k => gamma k * ((x k - mu) / Real.sqrt (sigma2 + 1e-12)) + beta k

/-- `tf.layers.dense` with no activation: `x · W + b`. -/
def dense {ι κ μ : Type} [Fintype κ] (x : ι → κ → ℝ) (W : κ → μ → ℝ)
    (b : μ → ℝ) : ι → μ → ℝ :=
  fun i j => (∑ k, x i k * W k j) + b j

/-- `tf.one_hot id depth`: the indicator row vector (all zeros when `id` is
outside `[0, depth)`). -/
def one_hot (depth : ℕ) (id : ℕ) : Fin depth → ℝ :=
  fun v => if id = (v : ℕ) then 1 else 0

/-- `embedding_lookup`, one-hot path (lines 553-556): flatten the ids,
one-hot to depth `V`, multiply by the table. -/
def embedding_lookup_one_hot {B S V E : ℕ} (input_ids : Fin B → Fin S → ℕ)
    (embedding_table : Fin V → Fin E → ℝ) : Fin B → Fin S → Fin E → ℝ :=
  fun b s e => ∑ v, one_hot V (input_ids b s) v * embedding_table v e

/-- `embedding_lookup`, gather path (lines 557-559):
`tf.nn.embedding_lookup(table, ids)`.  A gather at an id outside `[0, V)` is
rejected at run time by TensorFlow (undefined behavior per the spec); it is
modeled as 0 here, and every statement about this path assumes in-range
ids. -/
def embedding_lookup_gather {B S V E : ℕ} (input_ids : Fin B → Fin S → ℕ)
    (embedding_table : Fin V → Fin E → ℝ) : Fin B → Fin S → Fin E → ℝ :=
  fun b s e => if h : input_ids b s < V then embedding_table ⟨input_ids b s, h⟩ e else 0

/-- `embedding_lookup` (lines 517-566; `cluster_embedding_lookup` at lines
568-622 has the same lookup logic): chooses the one-hot or the gather path by
`use_one_hot_embeddings`.  The final reshape from `[B, S, 1, E]` to
`[B, S, E]` is the identity in this indexing. -/
def embedding_lookup (use_one_hot_embeddings : Bool) {B S V E : ℕ}
    (input_ids : Fin B → Fin S → ℕ) (embedding_table : Fin V → Fin E → ℝ) :
    Fin B → Fin S → Fin E → ℝ :=
  if use_one_hot_embeddings then embedding_lookup_one_hot input_ids embedding_table
  else embedding_lookup_gather input_ids embedding_table

/-- `embedding_postprocessor` (lines 731-852).  Adds the token-type channel
(one-hot times table) when `use_token_type`; when `use_position_embeddings`,
first runs `tf.assert_less_equal(seq_length, max_position_embeddings)` (a
fatal range error when violated, modeled as `Except.error`) and then adds the
first `S` rows of the position table (`tf.slice`); adds the entity channel
when `use_entity_embedding`; finally applies `layer_norm_and_dropout`. -/
def embedding_postprocessor {B S H TV maxP : ℕ}
    (input_tensor : Fin B → Fin S → Fin H → ℝ)
    (use_token_type : Bool) (token_type_ids : Fin B → Fin S → ℕ)
    (token_type_table : Fin TV → Fin H → ℝ)
    (use_position_embeddings : Bool) (position_table : Fin maxP → Fin H → ℝ)
    (use_entity_embedding : Bool) (entity_type_ids : Fin B → Fin S → ℕ)
    (entity_type_table : Fin TV → Fin H → ℝ)
    (ln_gamma ln_beta : Fin H → ℝ) (emb_keep : Fin B → Fin S → Fin H → Bool)
    (dropout_prob : Option ℝ) :
    Except String (Fin B → Fin S → Fin H → ℝ) :=
  let step1 : Fin B → Fin S → Fin H → ℝ := fun b s h =>
    input_tensor b s h +
      (if use_token_type then
        ∑ v, one_hot TV (token_type_ids b s) v * token_type_table v h
      else 0)
  let withPos : Except String (Fin B → Fin S → Fin H → ℝ) :=
    if use_position_embeddings then
      if hle : S ≤ maxP then
        Except.ok (fun b s h =>
          step1 b s h + position_table ⟨(s : ℕ), lt_of_lt_of_le s.isLt hle⟩ h)
      else Except.error "assert_less_equal: seq_length exceeds max_position_embeddings"
    else Except.ok step1
  withPos.map (fun out2 =>
    let out3 : Fin B → Fin S → Fin H → ℝ := fun b s h =>
      out2 b s h +
        (if use_entity_embedding then
          ∑ v, one_hot TV (entity_type_ids b s) v * entity_type_table v h
        else 0)
    fun b s => dropout (emb_keep b s) dropout_prob (layer_norm ln_gamma ln_beta (out3 b s)))

/-- `create_attention_mask_from_input_mask` (lines 892-924).  The code
reshapes `to_mask` to `[B, T, 1]` (the all-ones tensor of the original BERT
is commented out at line 919) and multiplies it with `to_mask` reshaped to
`[B, 1, T]`, so the entry at `(b, f, t)` is `to_mask b f * to_mask b t`. -/
def create_attention_mask_from_input_mask {B S : ℕ} (to_mask : Fin B → Fin S → ℝ) :
    Fin B → Fin S → Fin S → ℝ :=
  fun b f t => to_mask b f * to_mask b t

/-- Modeled from the spec sentence for the attention-mask invariant: the 3D
mask whose value at `(b, f, t)` is the base mask at `(b, t)`, independent of
`f` (every row an identical copy of the base mask).  Used only for
comparison against `create_attention_mask_from_input_mask`. -/
def spec_attention_mask {B S : ℕ} (to_mask : Fin B → Fin S → ℝ) :
    Fin B → Fin S → Fin S → ℝ :=
  fun b _f t => to_mask b t

/-- `dist_attn` (lines 1076-1079): the `F × F` matrix with entry
`(i, j) = j - i`. -/
def dist_attn (F : ℕ) : Fin F → Fin F → ℝ :=
  fun i j => (j : ℝ) - (i : ℝ)

/-- `marg_dist` before softmax (line 1080):
`np.tril(dist_attn, 0) * -1 + np.triu(dist_attn, 0) * 1`.
`np.tril(·, 0)` keeps the entries with `j ≤ i` and `np.triu(·, 0)` those with
`i ≤ j`; the diagonal contributes `0 * -1 + 0 = 0`. -/
def marg_dist (F : ℕ) : Fin F → Fin F → ℝ :=
  fun i j =>
    (if (j : ℕ) ≤ (i : ℕ) then dist_attn F i j * (-1) else 0) +
      (if (i : ℕ) ≤ (j : ℕ) then dist_attn F i j * 1 else 0)

/-- The distance-bias matrix built inside `attention_layer`
(lines 1081-1082): `0.5 - tf.nn.softmax(marg_dist)` with row-wise softmax.
It is computed from NumPy constants and the from-sequence length alone — no
learned variable and no tensor content enters it. -/
def dist_bias (F : ℕ) : Fin F → Fin F → ℝ :=
  fun i j => 0.5 - softmaxRow (marg_dist F i) j

/-- Modeled from the spec's words for the margin matrix: strictly-below-
diagonal entries of `(i, j) = j - i` negated, strictly-above-diagonal entries
kept, zero diagonal.  Used only for comparison against `marg_dist`. -/
def spec_margin (F : ℕ) : Fin F → Fin F → ℝ :=
  fun i j =>
    if (j : ℕ) < (i : ℕ) then -((j : ℝ) - (i : ℝ))
    else if (i : ℕ) < (j : ℕ) then (j : ℝ) - (i : ℝ)
    else 0

/-- Modeled from the spec's words for the distance bias: `0.5` minus the
row-wise softmax of the spec's margin matrix. -/
def spec_dist_bias (F : ℕ) : Fin F → Fin F → ℝ :=
  fun i j => 0.5 - softmaxRow (spec_margin F i) j

/-- Raw per-head attention scores (line 1072):
`tf.matmul(query_layer, key_layer, transpose_b=True)` on `[B, N, S, Hh]`
query/key tensors.  Self-attention in this model always has
`to_seq_length = from_seq_length` (the elementwise product of the `[B, F, T]`
mask with the `[F, F]` distance matrix at line 1083 forces `T = F`), so a
single length `S` is used. -/
def attention_raw_scores {B N S Hh : ℕ}
    (Q K : Fin B → Fin N → Fin S → Fin Hh → ℝ) :
    Fin B → Fin N → Fin S → Fin S → ℝ :=
  fun b n f t => ∑ h, Q b n f h * K b n t h

/-- Scores after the distance bias (lines 1083-1085): the bias matrix is
multiplied elementwise by the (float-cast) attention mask, expanded at axis 1
to broadcast across heads, and added to the raw scores. -/
def attention_biased_scores {B N S Hh : ℕ}
    (Q K : Fin B → Fin N → Fin S → Fin Hh → ℝ)
    (attention_mask : Fin B → Fin S → Fin S → ℝ) :
    Fin B → Fin N → Fin S → Fin S → ℝ :=
  fun b n f t =>
    attention_raw_scores Q K b n f t + attention_mask b f t * dist_bias S f t

/-- Scores after scaling (line 1088):
`tf.multiply(attention_scores, 1.0 / math.sqrt(float(size_per_head)))`,
applied after the distance bias was added (the pre-bias scaling at line 1073
is commented out). -/
def attention_scaled_scores {B N S Hh : ℕ}
    (Q K : Fin B → Fin N → Fin S → Fin Hh → ℝ)
    (attention_mask : Fin B → Fin S → Fin S → ℝ) :
    Fin B → Fin N → Fin S → Fin S → ℝ :=
  fun b n f t =>
    attention_biased_scores Q K attention_mask b n f t * (1 / Real.sqrt (Hh : ℝ))

/-- Scores after the additive mask penalty (lines 1092-1108):
`adder = (1.0 - mask) * -10000.0` is added to the scaled scores. -/
def attention_masked_scores {B N S Hh : ℕ}
    (Q K : Fin B → Fin N → Fin S → Fin Hh → ℝ)
    (attention_mask : Fin B → Fin S → Fin S → ℝ) :
    Fin B → Fin N → Fin S → Fin S → ℝ :=
  fun b n f t =>
    attention_scaled_scores Q K attention_mask b n f t +
      (1 - attention_mask b f t) * (-10000)

/-- Post-softmax attention probabilities (line 1117), before attention
dropout. -/
def attention_probs {B N S Hh : ℕ}
    (Q K : Fin B → Fin N → Fin S → Fin Hh → ℝ)
    (attention_mask : Fin B → Fin S → Fin S → ℝ) :
    Fin B → Fin N → Fin S → Fin S → ℝ :=
  fun b n f => softmaxRow (attention_masked_scores Q K attention_mask b n f)

/-- The query/key/value dense kernels and biases of one `attention_layer`
call (lines 1036-1058). -/
structure AttnWeights (W NH Hh : ℕ) where
  wq : Fin W → Fin NH × Fin Hh → ℝ
  bq : Fin NH × Fin Hh → ℝ
  wk : Fin W → Fin NH × Fin Hh → ℝ
  bk : Fin NH × Fin Hh → ℝ
  wv : Fin W → Fin NH × Fin Hh → ℝ
  bv : Fin NH × Fin Hh → ℝ

/-- `attention_layer` (lines 927-1149), with `do_return_2d_tensor = True` as
used by `transformer_model`: dense query/key/value projections,
`transpose_for_scores`, raw scores, distance bias, scaling, additive mask
penalty, softmax, attention dropout, reduction against values, and the final
transpose/reshape to `[B*F, N*Hh]`.  `sub_attention_mask` is received but
never used: its only uses (lines 1111-1113) are commented out in the
source. -/
def attention_layer {B S NH Hh W : ℕ}
    (from_tensor to_tensor : Fin B × Fin S → Fin W → ℝ)
    (attention_mask : Fin B → Fin S → Fin S → ℝ)
    (sub_attention_mask : Fin B → Fin S → Fin S → ℝ)
    (wts : AttnWeights W NH Hh)
    (attn_keep : Fin B → Fin NH → Fin S → Fin S → Bool)
    (attention_probs_dropout_prob : Option ℝ) :
    Fin B × Fin S → Fin NH × Fin Hh → ℝ :=
  let query_layer := dense from_tensor wts.wq wts.bq
  let key_layer := dense to_tensor wts.wk wts.bk
  let value_layer := dense to_tensor wts.wv wts.bv
  let Q : Fin B → Fin NH → Fin S → Fin Hh → ℝ := fun b n s h => query_layer (b, s) (n, h)
  let K : Fin B → Fin NH → Fin S → Fin Hh → ℝ := fun b n s h => key_layer (b, s) (n, h)
  let V : Fin B → Fin NH → Fin S → Fin Hh → ℝ := fun b n s h => value_layer (b, s) (n, h)
  let probs : Fin B → Fin NH → Fin S → Fin S → ℝ := fun b n f =>
    dropout (attn_keep b n f) attention_probs_dropout_prob
      (attention_probs Q K attention_mask b n f)
  fun bf nh => ∑ t, probs bf.1 nh.1 bf.2 t * V bf.1 nh.1 t nh.2

/-- The distance-bias matrix built during an `attention_layer` call
(lines 1076-1082).  The source computes it from `from_seq_length` alone —
none of the call's tensors or weights occur in the computation, which is why
the right-hand side ignores every argument except the length `S` carried in
the types. -/
def attention_layer_dist_bias {B S NH Hh W : ℕ}
    (_from_tensor _to_tensor : Fin B × Fin S → Fin W → ℝ)
    (_attention_mask _sub_attention_mask : Fin B → Fin S → Fin S → ℝ)
    (_wts : AttnWeights W NH Hh) : Fin S → Fin S → ℝ :=
  dist_bias S

/-- `transformer_model` head-size computation and divisibility check
(lines 1202-1207): raises `ValueError` when `hidden_size` is not a multiple
of `num_attention_heads`, otherwise each head has width
`hidden_size / num_attention_heads`. -/
def transformer_head_size (hidden_size num_attention_heads : ℕ) : Except String ℕ :=
  if hidden_size % num_attention_heads ≠ 0 then
    Except.error "The hidden size is not a multiple of the number of attention heads"
  else Except.ok (hidden_size / num_attention_heads)

/-- All learnable parameters of one transformer layer (lines 1226-1286). -/
structure LayerWeights (H NH Hh I : ℕ) where
  attn : AttnWeights H NH Hh
  wo : Fin NH × Fin Hh → Fin H → ℝ
  bo : Fin H → ℝ
  ln1_gamma : Fin H → ℝ
  ln1_beta : Fin H → ℝ
  wi : Fin H → Fin I → ℝ
  bi : Fin I → ℝ
  wo2 : Fin I → Fin H → ℝ
  bo2 : Fin H → ℝ
  ln2_gamma : Fin H → ℝ
  ln2_beta : Fin H → ℝ

/-- The dropout draws made inside one transformer layer. -/
structure LayerRand (B S H NH : ℕ) where
  attn_keep : Fin B → Fin NH → Fin S → Fin S → Bool
  out_keep : Fin B × Fin S → Fin H → Bool
  ff_keep : Fin B × Fin S → Fin H → Bool

/-- One transformer block (lines 1226-1286): self-attention, output dense,
dropout, residual, layer norm; then intermediate dense with activation,
output dense, dropout, residual, layer norm. -/
def transformer_layer {B S H NH Hh I : ℕ}
    (w : LayerWeights H NH Hh I) (r : LayerRand B S H NH)
    (attention_mask sub_attention_mask : Fin B → Fin S → Fin S → ℝ)
    (intermediate_act_fn : ℝ → ℝ)
    (hidden_dropout_prob attention_probs_dropout_prob : Option ℝ)
    (layer_input : Fin B × Fin S → Fin H → ℝ) :
    Fin B × Fin S → Fin H → ℝ :=
  let attention_head := attention_layer layer_input layer_input attention_mask
    sub_attention_mask w.attn r.attn_keep attention_probs_dropout_prob
  let attention_dense := dense attention_head w.wo w.bo
  let attention_dropped := fun i => dropout (r.out_keep i) hidden_dropout_prob (attention_dense i)
  let attention_output := fun i =>
    layer_norm w.ln1_gamma w.ln1_beta (fun k => attention_dropped i k + layer_input i k)
  let intermediate_output := fun i j => intermediate_act_fn (dense attention_output w.wi w.bi i j)
  let layer_dense := dense intermediate_output w.wo2 w.bo2
  let layer_dropped := fun i => dropout (r.ff_keep i) hidden_dropout_prob (layer_dense i)
  fun i => layer_norm w.ln2_gamma w.ln2_beta (fun k => layer_dropped i k + attention_output i k)

/-- The transformer stack (lines 1223-1287): `transformer_layers … n` is the
running hidden state after `n` layers (in 2D `[B*S, H]` form), so the output
of layer `i` (0-based) is `transformer_layers … (i+1)`. -/
def transformer_layers {B S H NH Hh I : ℕ}
    (ws : ℕ → LayerWeights H NH Hh I) (rs : ℕ → LayerRand B S H NH)
    (attention_mask sub_attention_mask : Fin B → Fin S → Fin S → ℝ)
    (intermediate_act_fn : ℝ → ℝ)
    (hidden_dropout_prob attention_probs_dropout_prob : Option ℝ)
    (input : Fin B × Fin S → Fin H → ℝ) :
    ℕ → (Fin B × Fin S → Fin H → ℝ)
  | 0 => input
  | n + 1 =>
    transformer_layer (ws n) (rs n) attention_mask sub_attention_mask
      intermediate_act_fn hidden_dropout_prob attention_probs_dropout_prob
      (transformer_layers ws rs attention_mask sub_attention_mask
        intermediate_act_fn hidden_dropout_prob attention_probs_dropout_prob input n)

/-- The 0-based positions at which `input_ids` equals the sentinel id 1475:
`tf.where(tf.equal(input_ids, 1475))` (line 311).  The gathered
`second_token_tensor` is computed in the pooler but never folded into the
returned pooled output (the concat at line 315 is commented out). -/
def second_token_positions {B S : ℕ} (input_ids : Fin B → Fin S → ℕ) :
    Finset (Fin B × Fin S) :=
  Finset.univ.filter (fun bs => input_ids bs.1 bs.2 = 1475)

/-- The pooler (lines 303-321): squeeze out position 0 of the final hidden
state and project it through a dense layer with `tanh` activation.  The
`second_token_tensor` gather depends on `input_ids`, but the returned pooled
output uses only the first-token vector, so `input_ids` does not occur in
the result. -/
def pooler {B S H : ℕ} (hS : 0 < S)
    (sequence_output : Fin B → Fin S → Fin H → ℝ)
    (input_ids : Fin B → Fin S → ℕ)
    (pool_w : Fin H → Fin H → ℝ) (pool_b : Fin H → ℝ) : Fin B → Fin H → ℝ :=
  let first_token_tensor : Fin B → Fin H → ℝ := fun b h => sequence_output b ⟨0, hS⟩ h
  let _second_token_index := second_token_positions input_ids
  fun b h => Real.tanh ((∑ k, first_token_tensor b k * pool_w k h) + pool_b h)

/-- All learnable parameters of `BertModel`. -/
structure BertWeights (H NH Hh I V C TV maxP : ℕ) where
  word_table : Fin V → Fin H → ℝ
  cluster_table : Fin C → Fin H → ℝ
  token_type_table : Fin TV → Fin H → ℝ
  position_table : Fin maxP → Fin H → ℝ
  entity_table : Fin TV → Fin H → ℝ
  emb_ln_gamma : Fin H → ℝ
  emb_ln_beta : Fin H → ℝ
  layers : ℕ → LayerWeights H NH Hh I
  pool_w : Fin H → Fin H → ℝ
  pool_b : Fin H → ℝ

/-- All dropout draws of a `BertModel` forward pass. -/
structure BertRand (B S H NH : ℕ) where
  emb_keep : Fin B → Fin S → Fin H → Bool
  layer_rand : ℕ → LayerRand B S H NH

/-- The tensors `BertModel` exposes after construction. -/
structure BertOutputs (B S H : ℕ) where
  embedding_output : Fin B → Fin S → Fin H → ℝ
  all_encoder_layers : ℕ → Fin B → Fin S → Fin H → ℝ
  sequence_output : Fin B → Fin S → Fin H → ℝ
  pooled_output : Fin B → Fin H → ℝ

/-- `BertModel.__init__` (lines 142-321) on the active path
(`layer_def[0]` true): word and cluster embedding lookups are summed, the
result goes through `embedding_postprocessor` with
`use_entity_embedding=False` and `entity_type_ids=context_mask` (line 260),
the 3D `attention_mask` and `sub_attention_mask` are built from `input_mask`
and `context_mask` (lines 270-273), the transformer stack runs, and the
pooler produces the pooled output.  The disabled distance/chunk-context
embedding channels (lines 222-246) are commented out in the source and are
not modeled. -/
def bertForward {B S H NH Hh I V C TV maxP : ℕ} (hS : 0 < S)
    (num_hidden_layers : ℕ)
    (use_token_type use_position_embeddings use_one_hot_embeddings : Bool)
    (w : BertWeights H NH Hh I V C TV maxP) (r : BertRand B S H NH)
    (intermediate_act_fn : ℝ → ℝ)
    (hidden_dropout_prob attention_probs_dropout_prob : Option ℝ)
    (input_ids cluster_ids : Fin B → Fin S → ℕ)
    (input_mask : Fin B → Fin S → ℝ)
    (context_mask : Fin B → Fin S → ℕ)
    (token_type_ids : Fin B → Fin S → ℕ) :
    Except String (BertOutputs B S H) :=
  let word_output := embedding_lookup use_one_hot_embeddings input_ids w.word_table
  let cluster_output := embedding_lookup use_one_hot_embeddings cluster_ids w.cluster_table
  match embedding_postprocessor
      (fun b s h => cluster_output b s h + word_output b s h)
      use_token_type token_type_ids w.token_type_table
      use_position_embeddings w.position_table
      false context_mask w.entity_table
      w.emb_ln_gamma w.emb_ln_beta r.emb_keep hidden_dropout_prob with
  | Except.error e => Except.error e
  | Except.ok embedding_output =>
    let attention_mask := create_attention_mask_from_input_mask input_mask
    let sub_attention_mask :=
      create_attention_mask_from_input_mask (fun b s => (context_mask b s : ℝ))
    let layersOut := transformer_layers w.layers r.layer_rand attention_mask
      sub_attention_mask intermediate_act_fn hidden_dropout_prob
      attention_probs_dropout_prob (fun bs => embedding_output bs.1 bs.2)
    Except.ok
      ⟨embedding_output,
       fun i b s => layersOut (i + 1) (b, s),
       fun b s => layersOut num_hidden_layers (b, s),
       pooler hS (fun b s => layersOut num_hidden_layers (b, s)) input_ids w.pool_w w.pool_b⟩

/-! ### Concrete inputs used to evaluate the development on closed instances -/

/-- Unit query tensor (B = N = Hh = 1, S = 2) for a concrete attention
evaluation. -/
def cexQ : Fin 1 → Fin 1 → Fin 2 → Fin 1 → ℝ := fun _ _ _ _ => 1

/-- Key tensor putting a huge raw score on position 0. -/
def cexK : Fin 1 → Fin 1 → Fin 2 → Fin 1 → ℝ := fun _ _ t _ => if t = 0 then 20000 else 0

/-- Attention mask masking position 0 and keeping position 1. -/
def cexMask : Fin 1 → Fin 2 → Fin 2 → ℝ := fun _ _ t => if t = 0 then 0 else 1

/-- All-zero attention weights at unit sizes. -/
def zeroAttnW : AttnWeights 1 1 1 :=
  ⟨fun _ _ => 0, fun _ => 0, fun _ _ => 0, fun _ => 0, fun _ _ => 0, fun _ => 0⟩

/-- All-zero transformer-layer weights at unit sizes. -/
def zeroLayerW : LayerWeights 1 1 1 1 :=
  ⟨zeroAttnW, fun _ _ => 0, fun _ => 0, fun _ => 0, fun _ => 0, fun _ _ => 0,
    fun _ => 0, fun _ _ => 0, fun _ => 0, fun _ => 0, fun _ => 0⟩

/-- Keep-everything dropout draws at unit sizes. -/
def keepLayerR : LayerRand 1 1 1 1 :=
  ⟨fun _ _ _ _ => true, fun _ _ => true, fun _ _ => true⟩

/-- All-zero model weights at unit sizes. -/
def zeroBertW : BertWeights 1 1 1 1 1 1 1 1 :=
  ⟨fun _ _ => 0, fun _ _ => 0, fun _ _ => 0, fun _ _ => 0, fun _ _ => 0,
    fun _ => 0, fun _ => 0, fun _ => zeroLayerW, fun _ _ => 0, fun _ => 0⟩

/-- Keep-everything dropout draws for a whole forward pass at unit sizes. -/
def keepBertR : BertRand 1 1 1 1 :=
  ⟨fun _ _ _ => true, fun _ => keepLayerR⟩

/-! ### Helper lemmas -/

theorem marg_dist_eq_spec_margin (F : ℕ) : marg_dist F = spec_margin F := by
  funext i j
  simp only [marg_dist, spec_margin, dist_attn, mul_one]
  rcases Nat.lt_trichotomy (j : ℕ) (i : ℕ) with h | h | h
  · rw [if_pos h.le, if_neg (Nat.not_le.mpr h), if_pos h]
    ring
  · rw [if_pos h.le, if_pos h.ge, if_neg (by omega), if_neg (by omega)]
    ring
  · rw [if_neg (Nat.not_le.mpr h), if_pos h.le, if_neg (by omega), if_pos h]
    ring

theorem dist_bias_eq_spec (F : ℕ) : dist_bias F = spec_dist_bias F := by
  unfold dist_bias spec_dist_bias
  rw [marg_dist_eq_spec_margin]

theorem softmaxRow_nonneg {n : ℕ} (v : Fin n → ℝ) (i : Fin n) : 0 ≤ softmaxRow v i :=
  div_nonneg (Real.exp_pos _).le (Finset.sum_nonneg fun _ _ => (Real.exp_pos _).le)

theorem softmaxRow_le_one {n : ℕ} (v : Fin n → ℝ) (i : Fin n) : softmaxRow v i ≤ 1 :=
  div_le_one_of_le
    (Finset.single_le_sum (fun j _ => (Real.exp_pos (v j)).le) (Finset.mem_univ i))
    (Finset.sum_nonneg fun _ _ => (Real.exp_pos _).le)

theorem softmaxRow_le_exp_sub {n : ℕ} (v : Fin n → ℝ) (i i' : Fin n) :
    softmaxRow v i ≤ Real.exp (v i - v i') := by
  unfold softmaxRow
  rw [Real.exp_sub]
  exact div_le_div_of_nonneg_left (Real.exp_pos _).le (Real.exp_pos _)
    (Finset.single_le_sum (fun j _ => (Real.exp_pos (v j)).le) (Finset.mem_univ i'))

theorem exp_ten_gt : (10000 : ℝ) < Real.exp 10 := by
  have h1 : ((2.7182818283 : ℝ)) ^ (10 : ℕ) < Real.exp 1 ^ (10 : ℕ) := by
    have := Real.exp_one_gt_d9
    exact pow_lt_pow_left this (by norm_num) (by norm_num)
  have h2 : Real.exp 1 ^ (10 : ℕ) = Real.exp 10 := by
    rw [← Real.exp_nat_mul]
    norm_num
  have h3 : (10000 : ℝ) < (2.7182818283 : ℝ) ^ (10 : ℕ) := by norm_num
  calc (10000 : ℝ) < (2.7182818283 : ℝ) ^ (10 : ℕ) := h3
    _ < Real.exp 1 ^ (10 : ℕ) := h1
    _ = Real.exp 10 := h2

theorem exp_neg_two_thousand_lt : Real.exp (-2000) < 1 / 10000 := by
  have h1 : Real.exp (-2000) ≤ Real.exp (-10) := Real.exp_le_exp.mpr (by norm_num)
  have h2 : Real.exp (-10) < 1 / 10000 := by
    rw [Real.exp_neg]
    rw [inv_lt_comm₀ (Real.exp_pos 10) (by norm_num)]
    calc (1 / 10000 : ℝ)⁻¹ = 10000 := by norm_num
      _ < Real.exp 10 := exp_ten_gt
  exact lt_of_le_of_lt h1 h2

/-! ### Claim theorems -/

/-- C1: for every from-sequence length `F ≥ 1` and every attention mask, the
scores produced by the code's pipeline (raw scores, then `marg_dist` built
from `(i, j) = j - i` with strictly-below-diagonal entries negated,
strictly-above-diagonal entries kept and a zero diagonal, row-wise softmax,
`0.5 -`, elementwise mask multiply, add, and only then the `1/sqrt Hh`
scaling) equal the spec's formula: the distance bias is added to the raw
scores before the scaling. -/
theorem attention_distance_bias_matches_spec {B N S Hh : ℕ}
    (Q K : Fin B → Fin N → Fin S → Fin Hh → ℝ)
    (attention_mask : Fin B → Fin S → Fin S → ℝ)
    (hS : 1 ≤ S) :
    attention_scaled_scores Q K attention_mask = fun b n f t =>
      (attention_raw_scores Q K b n f t +
        attention_mask b f t * spec_dist_bias S f t) * (1 / Real.sqrt (Hh : ℝ)) := by
  funext b n f t
  simp only [attention_scaled_scores, attention_biased_scores, dist_bias_eq_spec]

/-- Witness for C1 at concrete sizes. -/
theorem attention_distance_bias_matches_spec_witness :
    (1 ≤ 2) ∧
      attention_scaled_scores
          (fun (_ : Fin 1) (_ : Fin 1) (_ : Fin 2) (_ : Fin 1) => (1 : ℝ))
          (fun (_ : Fin 1) (_ : Fin 1) (_ : Fin 2) (_ : Fin 1) => (1 : ℝ))
          (fun (_ : Fin 1) (_ : Fin 2) (_ : Fin 2) => (1 : ℝ)) = fun b n f t =>
        (attention_raw_scores
            (fun (_ : Fin 1) (_ : Fin 1) (_ : Fin 2) (_ : Fin 1) => (1 : ℝ))
            (fun (_ : Fin 1) (_ : Fin 1) (_ : Fin 2) (_ : Fin 1) => (1 : ℝ)) b n f t +
          (fun (_ : Fin 1) (_ : Fin 2) (_ : Fin 2) => (1 : ℝ)) b f t * spec_dist_bias 2 f t) *
            (1 / Real.sqrt ((1 : ℕ) : ℝ)) :=
  ⟨by decide,
    attention_distance_bias_matches_spec (fun _ _ _ _ => 1) (fun _ _ _ _ => 1)
      (fun _ _ _ => 1) (by decide)⟩

/-- C2 counterexample: with the base mask `m = [[1, 0]]`, the code's 3D mask
at `(b, f, t) = (0, 1, 0)` is `0`, while the spec's from-independent mask
(`mask[b, f, t] = m[b, t]`) is `1` there: the rows of the `[F, T]` slice are
not identical copies of the base mask. -/
theorem attention_mask_row_copy_cex :
    create_attention_mask_from_input_mask
        (fun (_ : Fin 1) (t : Fin 2) => if t = 0 then (1 : ℝ) else 0) 0 1 0 = 0 ∧
      spec_attention_mask
        (fun (_ : Fin 1) (t : Fin 2) => if t = 0 then (1 : ℝ) else 0) 0 1 0 = 1 := by
  constructor
  · simp [create_attention_mask_from_input_mask]
  · simp [spec_attention_mask]

/-- C2 amended: for every binary 2D mask `m`, the 3D tensor returned by
`create_attention_mask_from_input_mask` has value
`mask[b, f, t] = m[b, f] * m[b, t]` (the outer product of the base mask with
itself): it equals `m[b, t]` at rows whose from-position is unmasked, and is
`0` across the whole row when the from-position is masked, so the rows are
not in general identical copies of the base mask. -/
theorem attention_mask_outer_product {B S : ℕ} (m : Fin B → Fin S → ℝ)
    (hbin : ∀ b s, m b s = 0 ∨ m b s = 1) (b : Fin B) (f t : Fin S) :
    create_attention_mask_from_input_mask m b f t = m b f * m b t ∧
      (m b f = 1 → create_attention_mask_from_input_mask m b f t = m b t) ∧
      (m b f = 0 → create_attention_mask_from_input_mask m b f t = 0) := by
  refine ⟨rfl, fun h1 => ?_, fun h0 => ?_⟩
  · simp [create_attention_mask_from_input_mask, h1]
  · simp [create_attention_mask_from_input_mask, h0]

/-- Witness for C2's amended theorem at a concrete binary mask. -/
theorem attention_mask_outer_product_witness :
    create_attention_mask_from_input_mask
        (fun (_ : Fin 1) (t : Fin 2) => if t = 0 then (1 : ℝ) else 0) 0 1 0 =
      (if (1 : Fin 2) = 0 then (1 : ℝ) else 0) * (if (0 : Fin 2) = 0 then (1 : ℝ) else 0) :=
  (attention_mask_outer_product (fun _ t => if t = 0 then (1 : ℝ) else 0)
    (by intro b s; by_cases h : s = 0 <;> simp [h]) 0 1 0).1

/-- C4: the distance-bias matrix built inside `attention_layer` is not a
learned parameter (no weight occurs in its computation) and is a function of
the from-sequence length alone: two calls with the same `from_seq_length`
but arbitrarily different tensors, masks and weights build identical
matrices, both equal to `dist_bias S`; and inside the score pipeline the
bias added to the raw scores is exactly the mask-weighted copy of this
matrix. -/
theorem distance_bias_content_independent {S B₁ NH₁ Hh₁ W₁ B₂ NH₂ Hh₂ W₂ : ℕ}
    (ft₁ tt₁ : Fin B₁ × Fin S → Fin W₁ → ℝ) (am₁ sam₁ : Fin B₁ → Fin S → Fin S → ℝ)
    (w₁ : AttnWeights W₁ NH₁ Hh₁)
    (ft₂ tt₂ : Fin B₂ × Fin S → Fin W₂ → ℝ) (am₂ sam₂ : Fin B₂ → Fin S → Fin S → ℝ)
    (w₂ : AttnWeights W₂ NH₂ Hh₂)
    (Q K : Fin B₁ → Fin NH₁ → Fin S → Fin Hh₁ → ℝ) (b : Fin B₁) (n : Fin NH₁) (f t : Fin S) :
    attention_layer_dist_bias ft₁ tt₁ am₁ sam₁ w₁ =
        attention_layer_dist_bias ft₂ tt₂ am₂ sam₂ w₂ ∧
      attention_layer_dist_bias ft₁ tt₁ am₁ sam₁ w₁ = dist_bias S ∧
      attention_biased_scores Q K am₁ b n f t - attention_raw_scores Q K b n f t =
        am₁ b f t * dist_bias S f t := by
  refine ⟨rfl, rfl, ?_⟩
  simp only [attention_biased_scores]
  ring

/-- C6: `transformer_model` (hence `BertModel`) fails at construction when
`hidden_size` is not an exact multiple of `num_attention_heads`, and when
`hidden_size = num_attention_heads * head_width` exactly it succeeds with
per-head width `head_width = hidden_size / num_attention_heads`. -/
theorem transformer_head_divisibility (hidden_size num_attention_heads head_width : ℕ)
    (hpos : 0 < num_attention_heads) :
    (¬ num_attention_heads ∣ hidden_size →
        (transformer_head_size hidden_size num_attention_heads).isOk = false) ∧
      (hidden_size = num_attention_heads * head_width →
        transformer_head_size hidden_size num_attention_heads = Except.ok head_width) := by
  constructor
  · intro hnd
    have hmod : hidden_size % num_attention_heads ≠ 0 := fun h =>
      hnd (Nat.dvd_of_mod_eq_zero h)
    simp [transformer_head_size, hmod, Except.isOk, Except.toBool]
  · intro heq
    subst heq
    have hmod : num_attention_heads * head_width % num_attention_heads = 0 :=
      Nat.mul_mod_right _ _
    simp [transformer_head_size, hmod, Nat.mul_div_cancel_left _ hpos]

/-- Witness for C6: 512 is not a multiple of 6 (error), and 512 = 8 · 64
gives head width 64. -/
theorem transformer_head_divisibility_witness :
    ((transformer_head_size 512 6).isOk = false) ∧
      transformer_head_size 512 8 = Except.ok 64 :=
  ⟨(transformer_head_divisibility 512 6 0 (by decide)).1 (by decide),
    (transformer_head_divisibility 512 8 64 (by decide)).2 (by decide)⟩

/-- C8: for ids all in `[0, vocab_size)`, the one-hot-times-matrix path and
the indexed-gather path of `embedding_lookup` return identical
`[B, S, E]` tensors. -/
theorem embedding_lookup_paths_agree {B S V E : ℕ}
    (input_ids : Fin B → Fin S → ℕ) (embedding_table : Fin V → Fin E → ℝ)
    (hids : ∀ b s, input_ids b s < V) :
    embedding_lookup true input_ids embedding_table =
      embedding_lookup false input_ids embedding_table := by
  funext b s e
  simp only [embedding_lookup, if_pos, if_neg, Bool.false_eq_true, ite_true, ite_false]
  simp only [embedding_lookup_one_hot, embedding_lookup_gather, one_hot]
  rw [dif_pos (hids b s)]
  rw [Finset.sum_eq_single (⟨input_ids b s, hids b s⟩ : Fin V)]
  · simp
  · intro v _ hv
    have : input_ids b s ≠ (v : ℕ) := by
      intro h
      exact hv (by apply Fin.ext; simp [← h])
    simp [this]
  · intro habs
    exact absurd (Finset.mem_univ _) habs

/-- Witness for C8 at a concrete id tensor and table. -/
theorem embedding_lookup_paths_agree_witness :
    embedding_lookup true (fun (_ : Fin 1) (_ : Fin 1) => 1)
        (fun (v : Fin 2) (_ : Fin 1) => (v : ℝ)) =
      embedding_lookup false (fun (_ : Fin 1) (_ : Fin 1) => 1)
        (fun (v : Fin 2) (_ : Fin 1) => (v : ℝ)) :=
  embedding_lookup_paths_agree (fun _ _ => 1) (fun v _ => (v : ℝ)) (by decide)

/-- C9: `dropout` returns its input unchanged (a strict identity) whenever
`dropout_prob` is `None` or exactly `0.0`, regardless of the random draw. -/
theorem dropout_zero_identity {n : ℕ} (keep : Fin n → Bool) (dropout_prob : Option ℝ)
    (input_tensor : Fin n → ℝ) (h : dropout_prob = none ∨ dropout_prob = some 0) :
    dropout keep dropout_prob input_tensor = input_tensor := by
  rcases h with h | h <;> subst h <;> simp [dropout]

/-- Witness for C9 with probability `0.0`. -/
theorem dropout_zero_identity_witness :
    dropout (fun (_ : Fin 2) => false) (some 0) (fun i : Fin 2 => (i : ℝ)) =
      fun i : Fin 2 => (i : ℝ) :=
  dropout_zero_identity _ _ _ (Or.inr rfl)

/-- `attention_layer` never reads `sub_attention_mask` (its uses at lines
1111-1113 are commented out): any value can be replaced by the canonical
all-zero mask. -/
theorem attention_layer_sub_mask_unused {B S NH Hh W : ℕ}
    (ft tt : Fin B × Fin S → Fin W → ℝ) (am sam : Fin B → Fin S → Fin S → ℝ)
    (wts : AttnWeights W NH Hh) (keep : Fin B → Fin NH → Fin S → Fin S → Bool)
    (p : Option ℝ) :
    attention_layer ft tt am sam wts keep p =
      attention_layer ft tt am (fun _ _ _ => 0) wts keep p := rfl

/-- The transformer stack never reads `sub_attention_mask`. -/
theorem transformer_layers_sub_mask_unused {B S H NH Hh I : ℕ}
    (ws : ℕ → LayerWeights H NH Hh I) (rs : ℕ → LayerRand B S H NH)
    (am sam : Fin B → Fin S → Fin S → ℝ) (act : ℝ → ℝ) (ph pa : Option ℝ)
    (input : Fin B × Fin S → Fin H → ℝ) (n : ℕ) :
    transformer_layers ws rs am sam act ph pa input n =
      transformer_layers ws rs am (fun _ _ _ => 0) act ph pa input n := by
  induction n with
  | zero => rfl
  | succ k ih =>
    simp only [transformer_layers]
    rw [ih]
    rfl

/-- With `use_entity_embedding = false`, `embedding_postprocessor` never
reads `entity_type_ids`: any value can be replaced by the canonical all-zero
tensor. -/
theorem embedding_postprocessor_entity_disabled {B S H TV maxP : ℕ}
    (it : Fin B → Fin S → Fin H → ℝ) (utt : Bool) (tti : Fin B → Fin S → ℕ)
    (ttt : Fin TV → Fin H → ℝ) (upe : Bool) (pt : Fin maxP → Fin H → ℝ)
    (e : Fin B → Fin S → ℕ) (et : Fin TV → Fin H → ℝ) (g be : Fin H → ℝ)
    (keep : Fin B → Fin S → Fin H → Bool) (p : Option ℝ) :
    embedding_postprocessor it utt tti ttt upe pt false e et g be keep p =
      embedding_postprocessor it utt tti ttt upe pt false (fun _ _ => 0) et g be keep p := rfl

/-- C3 (amended): with a binary mask, the additive penalty is exactly
`-10000` at masked positions and exactly `0` at unmasked positions (whose
scores are unchanged); and provided at least one position of the row is
unmasked and every pre-penalty scaled score has absolute value at most 4000,
every masked position's post-softmax probability is below `1e-4`.  The
original "regardless of the other scores" is refuted by
`mask_penalty_epsilon_cex`, which forces the bounded-scores proviso. -/
theorem mask_penalty_additive_and_bounded {B N S Hh : ℕ}
    (Q K : Fin B → Fin N → Fin S → Fin Hh → ℝ)
    (mask : Fin B → Fin S → Fin S → ℝ) (b : Fin B) (n : Fin N) (f : Fin S)
    (hbin : ∀ t, mask b f t = 0 ∨ mask b f t = 1) :
    (∀ t, attention_masked_scores Q K mask b n f t =
        attention_scaled_scores Q K mask b n f t +
          (if mask b f t = 0 then -10000 else 0)) ∧
      (∀ t, mask b f t = 1 → attention_masked_scores Q K mask b n f t =
        attention_scaled_scores Q K mask b n f t) ∧
      ((∃ t1, mask b f t1 = 1) →
        (∀ t, |attention_scaled_scores Q K mask b n f t| ≤ 4000) →
        ∀ t, mask b f t = 0 → attention_probs Q K mask b n f t < 1 / 10000) := by
  refine ⟨fun t => ?_, fun t h1 => ?_, ?_⟩
  · rcases hbin t with h | h
    · rw [if_pos h]
      simp only [attention_masked_scores, h]
      ring
    · rw [if_neg (by rw [h]; norm_num)]
      simp only [attention_masked_scores, h]
      ring
  · simp only [attention_masked_scores, h1]
    ring
  · rintro ⟨t1, ht1⟩ hbound t ht0
    have hle : attention_probs Q K mask b n f t ≤
        Real.exp (attention_masked_scores Q K mask b n f t -
          attention_masked_scores Q K mask b n f t1) :=
      softmaxRow_le_exp_sub (attention_masked_scores Q K mask b n f) t t1
    have hmt : attention_masked_scores Q K mask b n f t =
        attention_scaled_scores Q K mask b n f t - 10000 := by
      simp only [attention_masked_scores, ht0]
      ring
    have hmt1 : attention_masked_scores Q K mask b n f t1 =
        attention_scaled_scores Q K mask b n f t1 := by
      simp only [attention_masked_scores, ht1]
      ring
    have hdiff : attention_masked_scores Q K mask b n f t -
        attention_masked_scores Q K mask b n f t1 ≤ -2000 := by
      rw [hmt, hmt1]
      have h1 := (abs_le.mp (hbound t)).2
      have h2 := (abs_le.mp (hbound t1)).1
      linarith
    calc attention_probs Q K mask b n f t
        ≤ Real.exp (attention_masked_scores Q K mask b n f t -
            attention_masked_scores Q K mask b n f t1) := hle
      _ ≤ Real.exp (-2000) := Real.exp_le_exp.mpr hdiff
      _ < 1 / 10000 := exp_neg_two_thousand_lt

/-- Witness for C3's amended theorem: all-unmasked row, zero scores — the
penalty is 0 everywhere and no masked position exists. -/
theorem mask_penalty_additive_and_bounded_witness :
    attention_masked_scores cexQ (fun _ _ _ _ => 0) (fun _ _ _ => 1) 0 0 0 0 =
      attention_scaled_scores cexQ (fun _ _ _ _ => 0) (fun _ _ _ => 1) 0 0 0 0 +
        (if (fun (_ : Fin 1) (_ : Fin 2) (_ : Fin 2) => (1 : ℝ)) 0 0 (0 : Fin 2) = 0
          then -10000 else 0) :=
  (mask_penalty_additive_and_bounded cexQ (fun _ _ _ _ => 0) (fun _ _ _ => 1) 0 0 0
    (fun _ => Or.inr rfl)).1 0

/-- C3 counterexample: with mask row `[0, 1]` and a pre-penalty raw score of
20000 at the masked position 0, the post-softmax probability of the masked
position stays above 1/2, so it is not below `1e-4` "regardless of the other
scores". -/
theorem mask_penalty_epsilon_cex :
    cexMask 0 0 0 = 0 ∧
      ¬ (attention_probs cexQ cexK cexMask 0 0 0 0 < 1 / 10000) := by
  constructor
  · simp [cexMask]
  · have h0 : attention_masked_scores cexQ cexK cexMask 0 0 0 0 = 10000 := by
      simp [attention_masked_scores, attention_scaled_scores, attention_biased_scores,
        attention_raw_scores, cexQ, cexK, cexMask, Real.sqrt_one, Fin.sum_univ_one]
      norm_num
    have h1 : attention_masked_scores cexQ cexK cexMask 0 0 0 1 =
        0.5 - softmaxRow (marg_dist 2 0) 1 := by
      simp [attention_masked_scores, attention_scaled_scores, attention_biased_scores,
        attention_raw_scores, cexQ, cexK, cexMask, dist_bias, Real.sqrt_one, Fin.sum_univ_one]
    have hm1le : attention_masked_scores cexQ cexK cexMask 0 0 0 1 ≤ 10000 := by
      rw [h1]
      have := softmaxRow_nonneg (marg_dist 2 0) 1
      linarith
    have hprob : attention_probs cexQ cexK cexMask 0 0 0 0 =
        Real.exp (attention_masked_scores cexQ cexK cexMask 0 0 0 0) /
          (Real.exp (attention_masked_scores cexQ cexK cexMask 0 0 0 0) +
            Real.exp (attention_masked_scores cexQ cexK cexMask 0 0 0 1)) := by
      simp only [attention_probs, softmaxRow, Fin.sum_univ_two]
    have hexp1 : Real.exp (attention_masked_scores cexQ cexK cexMask 0 0 0 1) ≤
        Real.exp (attention_masked_scores cexQ cexK cexMask 0 0 0 0) := by
      apply Real.exp_le_exp.mpr
      rw [h0]
      exact hm1le
    have hge : (1 : ℝ) / 2 ≤ attention_probs cexQ cexK cexMask 0 0 0 0 := by
      rw [hprob]
      rw [le_div_iff (by positivity)]
      have := Real.exp_pos (attention_masked_scores cexQ cexK cexMask 0 0 0 0)
      linarith
    intro habs
    linarith

/-- C5: for every forward pass of `BertModel`, the returned pooled output is
the dense-plus-tanh projection of the final hidden state at token position 0
(its type `Fin B → Fin H → ℝ` is the `[batch_size, hidden_size]` shape for
every sequence length), and it does not depend on the terminator-token
gather: the pooler returns the same tensor for any two `input_ids`. -/
theorem pooled_output_first_token_only {B S H NH Hh I V C TV maxP : ℕ} (hS : 0 < S)
    (nl : ℕ) (utt upe uoh : Bool)
    (w : BertWeights H NH Hh I V C TV maxP) (r : BertRand B S H NH)
    (act : ℝ → ℝ) (hdp adp : Option ℝ)
    (input_ids cluster_ids : Fin B → Fin S → ℕ)
    (input_mask : Fin B → Fin S → ℝ) (context_mask : Fin B → Fin S → ℕ)
    (token_type_ids : Fin B → Fin S → ℕ)
    (sequence_output : Fin B → Fin S → Fin H → ℝ) (ids₁ ids₂ : Fin B → Fin S → ℕ)
    (pool_w : Fin H → Fin H → ℝ) (pool_b : Fin H → ℝ) :
    (∀ out, bertForward hS nl utt upe uoh w r act hdp adp
        input_ids cluster_ids input_mask context_mask token_type_ids = Except.ok out →
      out.pooled_output = fun b h =>
        Real.tanh ((∑ k, out.sequence_output b ⟨0, hS⟩ k * w.pool_w k h) + w.pool_b h)) ∧
      pooler hS sequence_output ids₁ pool_w pool_b =
        pooler hS sequence_output ids₂ pool_w pool_b := by
  constructor
  · intro out hout
    simp only [bertForward] at hout
    split at hout
    · exact absurd hout (by simp)
    · injection hout with hout
      subst hout
      rfl
  · rfl

/-- Witness for C5 at unit sizes with all-zero weights. -/
theorem pooled_output_first_token_only_witness :
    (0 < 1) ∧
      ((∀ out, bertForward Nat.one_pos 1 false false true zeroBertW keepBertR id none none
          (fun _ _ => 0) (fun _ _ => 0) (fun _ _ => 1) (fun (_ : Fin 1) (_ : Fin 1) => 0)
          (fun _ _ => 0) = Except.ok out →
        out.pooled_output = fun b h =>
          Real.tanh ((∑ k, out.sequence_output b ⟨0, Nat.one_pos⟩ k * zeroBertW.pool_w k h) +
            zeroBertW.pool_b h)) ∧
        pooler Nat.one_pos (fun (_ : Fin 1) (_ : Fin 1) (_ : Fin 1) => (0 : ℝ))
            (fun _ _ => 0) (fun _ _ => 0) (fun _ => 0) =
          pooler Nat.one_pos (fun _ _ _ => (0 : ℝ)) (fun _ _ => 1475)
            (fun _ _ => 0) (fun _ => 0)) :=
  ⟨Nat.one_pos,
    pooled_output_first_token_only Nat.one_pos 1 false false true zeroBertW keepBertR id
      none none (fun _ _ => 0) (fun _ _ => 0) (fun _ _ => 1) (fun _ _ => 0) (fun _ _ => 0)
      (fun _ _ _ => 0) (fun _ _ => 0) (fun _ _ => 1475) (fun _ _ => 0) (fun _ => 0)⟩

/-- C7: `embedding_postprocessor` with position embeddings enabled raises a
fatal range error whenever the sequence length exceeds
`max_position_embeddings` (the input is never silently truncated), and when
`S ≤ max_position_embeddings` it succeeds, the position channel added at
position `s` being exactly row `s` of the learned table — the first `S` rows
— before the final layer normalization and dropout. -/
theorem position_embedding_range_check {B S H TV maxP : ℕ}
    (input_tensor : Fin B → Fin S → Fin H → ℝ) (utt : Bool)
    (token_type_ids : Fin B → Fin S → ℕ) (token_type_table : Fin TV → Fin H → ℝ)
    (position_table : Fin maxP → Fin H → ℝ) (uee : Bool)
    (entity_type_ids : Fin B → Fin S → ℕ) (entity_type_table : Fin TV → Fin H → ℝ)
    (g be : Fin H → ℝ) (keep : Fin B → Fin S → Fin H → Bool) (p : Option ℝ) :
    (maxP < S →
      embedding_postprocessor input_tensor utt token_type_ids token_type_table
          true position_table uee entity_type_ids entity_type_table g be keep p =
        Except.error "assert_less_equal: seq_length exceeds max_position_embeddings") ∧
      (∀ hle : S ≤ maxP,
        embedding_postprocessor input_tensor utt token_type_ids token_type_table
            true position_table uee entity_type_ids entity_type_table g be keep p =
          Except.ok (fun b s =>
            dropout (keep b s) p (layer_norm g be (fun h =>
              input_tensor b s h +
                (if utt then
                  ∑ v, one_hot TV (token_type_ids b s) v * token_type_table v h
                else 0) +
                position_table ⟨(s : ℕ), lt_of_lt_of_le s.isLt hle⟩ h +
                (if uee then
                  ∑ v, one_hot TV (entity_type_ids b s) v * entity_type_table v h
                else 0))))) := by
  constructor
  · intro hgt
    simp only [embedding_postprocessor, if_true, dif_neg (not_le.mpr hgt)]
    rfl
  · intro hle
    simp only [embedding_postprocessor, if_true, dif_pos hle]
    rfl

/-- Witness for C7: sequence length 2 with capacity 1 fails; sequence length
1 with capacity 1 succeeds. -/
theorem position_embedding_range_check_witness :
    (1 < 2) ∧
      embedding_postprocessor (fun (_ : Fin 1) (_ : Fin 2) (_ : Fin 1) => (0 : ℝ)) false
          (fun _ _ => 0) (fun (_ : Fin 1) (_ : Fin 1) => (0 : ℝ))
          true (fun (_ : Fin 1) (_ : Fin 1) => (0 : ℝ)) false (fun _ _ => 0)
          (fun _ _ => 0) (fun _ => 1) (fun _ => 0) (fun _ _ _ => true) none =
        Except.error "assert_less_equal: seq_length exceeds max_position_embeddings" ∧
      (embedding_postprocessor (fun (_ : Fin 1) (_ : Fin 1) (_ : Fin 1) => (0 : ℝ)) false
          (fun _ _ => 0) (fun (_ : Fin 1) (_ : Fin 1) => (0 : ℝ))
          true (fun (_ : Fin 1) (_ : Fin 1) => (0 : ℝ)) false (fun _ _ => 0)
          (fun _ _ => 0) (fun _ => 1) (fun _ => 0) (fun _ _ _ => true) none).isOk = true := by
  refine ⟨by decide, ?_, ?_⟩
  · exact (position_embedding_range_check (fun _ _ _ => (0 : ℝ)) false (fun _ _ => 0)
      (fun _ _ => (0 : ℝ)) (fun _ _ => (0 : ℝ)) false (fun _ _ => 0) (fun _ _ => 0)
      (fun _ => 1) (fun _ => 0) (fun _ _ _ => true) none).1 (by decide)
  · rw [(position_embedding_range_check (fun _ _ _ => (0 : ℝ)) false (fun _ _ => 0)
      (fun _ _ => (0 : ℝ)) (fun _ _ => (0 : ℝ)) false (fun _ _ => 0) (fun _ _ => 0)
      (fun _ => 1) (fun _ => 0) (fun _ _ _ => true) none).2 (le_refl 1)]
    rfl

/-- C10: two `BertModel` forward passes identical except for the values of
the (binary) `context_mask` produce identical embedding output, encoder
layer outputs, sequence output and pooled output: the derived
`sub_attention_mask` is passed into `attention_layer` but never used there
(its uses are commented out in the source), and `embedding_postprocessor`
runs with `use_entity_embedding = False`, so the
`entity_type_ids = context_mask` channel is never added. -/
theorem context_mask_noninterference {B S H NH Hh I V C TV maxP : ℕ} (hS : 0 < S)
    (nl : ℕ) (utt upe uoh : Bool)
    (w : BertWeights H NH Hh I V C TV maxP) (r : BertRand B S H NH)
    (act : ℝ → ℝ) (hdp adp : Option ℝ)
    (input_ids cluster_ids : Fin B → Fin S → ℕ) (input_mask : Fin B → Fin S → ℝ)
    (cm₁ cm₂ : Fin B → Fin S → ℕ) (token_type_ids : Fin B → Fin S → ℕ)
    (hbin₁ : ∀ b s, cm₁ b s = 0 ∨ cm₁ b s = 1)
    (hbin₂ : ∀ b s, cm₂ b s = 0 ∨ cm₂ b s = 1) :
    bertForward hS nl utt upe uoh w r act hdp adp input_ids cluster_ids input_mask
        cm₁ token_type_ids =
      bertForward hS nl utt upe uoh w r act hdp adp input_ids cluster_ids input_mask
        cm₂ token_type_ids := by
  simp only [bertForward]
  rw [embedding_postprocessor_entity_disabled (fun b s h =>
        embedding_lookup uoh cluster_ids w.cluster_table b s h +
          embedding_lookup uoh input_ids w.word_table b s h)
      utt token_type_ids w.token_type_table upe w.position_table cm₁ w.entity_table
      w.emb_ln_gamma w.emb_ln_beta r.emb_keep hdp,
    embedding_postprocessor_entity_disabled (fun b s h =>
        embedding_lookup uoh cluster_ids w.cluster_table b s h +
          embedding_lookup uoh input_ids w.word_table b s h)
      utt token_type_ids w.token_type_table upe w.position_table cm₂ w.entity_table
      w.emb_ln_gamma w.emb_ln_beta r.emb_keep hdp]
  simp only [transformer_layers_sub_mask_unused]

/-- Witness for C10 at unit sizes: flipping the context mask from all-zero
to all-one leaves the forward pass unchanged. -/
theorem context_mask_noninterference_witness :
    (0 < 1) ∧
      bertForward Nat.one_pos 1 false false true zeroBertW keepBertR id none none
          (fun _ _ => 0) (fun _ _ => 0) (fun _ _ => 1) (fun (_ : Fin 1) (_ : Fin 1) => 0)
          (fun _ _ => 0) =
        bertForward Nat.one_pos 1 false false true zeroBertW keepBertR id none none
          (fun _ _ => 0) (fun _ _ => 0) (fun _ _ => 1) (fun _ _ => 1) (fun _ _ => 0) :=
  ⟨Nat.one_pos,
    context_mask_noninterference Nat.one_pos 1 false false true zeroBertW keepBertR id
      none none (fun _ _ => 0) (fun _ _ => 0) (fun _ _ => 1) (fun _ _ => 0) (fun _ _ => 1)
      (fun _ _ => 0) (fun _ _ => Or.inl rfl) (fun _ _ => Or.inr rfl)⟩

end

end LBert
